import Mathlib

/-!
# Verification of the ts_mtdomecom control-and-simulation core

Shallow embedding of the parts of the MTDome controller bridge that the
claims concern, translated from the Python sources:

* python/lsst/ts/mtdomecom/mock_llc/lcs.py (LcsStatus, the louvers state machine)
* python/lsst/ts/mtdomecom/mock_controller.py (MockMTDomeController dispatch)
* python/lsst/ts/mtdomecom/mtdome_com.py (MTDomeCom, the bridge)
* python/lsst/ts/mtdomecom/constants.py and enums.py

Python floats are idealised as rationals; none of the proved properties
depends on rounding of binary floating point.
-/

namespace MTDome

/-! ## Constants (constants.py) -/

/-- LCS_NUM_LOUVERS = 34 -/
def LCS_NUM_LOUVERS : Nat := 34

/-- LCS_NUM_MOTORS_PER_LOUVER = 2 -/
def LCS_NUM_MOTORS_PER_LOUVER : Nat := 2

/-- LCS_MOTION_VELOCITY = 100 / 30 (percent per second) -/
def LCS_MOTION_VELOCITY : ℚ := 100 / 30

/-- DOME_AZIMUTH_OFFSET = 32.0 (degrees) -/
def DOME_AZIMUTH_OFFSET : ℚ := 32

/-- DOME_VOLTAGE = 220.0 (volt) -/
def DOME_VOLTAGE : ℚ := 220

/-- Modelled from the spec: the numeric value of `LOUVERS_POWER_DRAW` lives in
power_management/power_draw_constants.py, which is not under src/. The spec
(sections 4.2.4, 4.4.3 and scenario S5) uses it as a fixed positive power draw
on the rotating rail but gives no numeric value, so the louvers state machine
below is parameterised by it (argument name `louversPowerDraw`). -/
def LOUVERS_POWER_DRAW_IS_SPEC_MODELLED : Prop := True

/-- LCS_CURRENT_PER_MOTOR = LOUVERS_POWER_DRAW / LCS_NUM_LOUVERS / DOME_VOLTAGE
/ LCS_NUM_MOTORS_PER_LOUVER (constants.py), as a function of the spec-modelled
`LOUVERS_POWER_DRAW` value. -/
def lcsCurrentPerMotor (louversPowerDraw : ℚ) : ℚ :=
  louversPowerDraw / (LCS_NUM_LOUVERS : ℚ) / DOME_VOLTAGE / (LCS_NUM_MOTORS_PER_LOUVER : ℚ)

/-- numpy.isclose with the default tolerances rtol=1e-5, atol=1e-8:
|a - b| <= atol + rtol * |b|. -/
def npIsClose (a b : ℚ) : Bool :=
  |a - b| ≤ 1 / 100000000 + (1 / 100000) * |b|

/-! ## Motion states (lsst.ts.xml MotionState names and InternalMotionState)
used by the louvers state machine. Each constructor is the MotionState (or
InternalMotionState) member of the same name. -/

inductive LouverState where
  | stationary            -- InternalMotionState.STATIONARY
  | enablingMotorPower    -- MotionState.ENABLING_MOTOR_POWER
  | motorPowerOn          -- MotionState.MOTOR_POWER_ON
  | goNormal              -- MotionState.GO_NORMAL
  | disengagingBrakes     -- MotionState.DISENGAGING_BRAKES
  | brakesDisengaged      -- MotionState.BRAKES_DISENGAGED
  | moving                -- MotionState.MOVING
  | stopping              -- MotionState.STOPPING
  | stopped               -- MotionState.STOPPED
  | engagingBrakes        -- MotionState.ENGAGING_BRAKES
  | brakesEngaged         -- MotionState.BRAKES_ENGAGED
  | goStationary          -- MotionState.GO_STATIONARY
  | disablingMotorPower   -- MotionState.DISABLING_MOTOR_POWER
  | motorPowerOff         -- MotionState.MOTOR_POWER_OFF
  | opening               -- MotionState.OPENING
  | closing               -- MotionState.CLOSING
  | error                 -- MotionState.ERROR
  deriving DecidableEq, Repr

/-- Status messages (base_mock_llc.py): DEFAULT_MESSAGES and FAULT_MESSAGES. -/
structure StatusMessage where
  code : Nat
  description : String
  deriving DecidableEq, Repr

/-- DEFAULT_MESSAGES = [dict(code=0, description="No Errors")] -/
def DEFAULT_MESSAGES : List StatusMessage := [⟨0, "No Errors"⟩]

/-- FAULT_MESSAGES = [dict(code=1, description="Motors in error state.")] -/
def FAULT_MESSAGES : List StatusMessage := [⟨1, "Motors in error state."⟩]

/-! ## LcsStatus (mock_llc/lcs.py)

The per-louver arrays of length LCS_NUM_LOUVERS (and per-motor arrays of
length LCS_NUM_LOUVERS * LCS_NUM_MOTORS_PER_LOUVER) are embedded as lists.

The constructor writes
  `self.drives_in_error_state = [[False] * LCS_NUM_MOTORS_PER_LOUVER] * LCS_NUM_LOUVERS`
which in Python makes all 34 outer entries alias ONE two-element inner list;
every later write `drives_in_error_state[l][i] = v` mutates that single shared
list in place (set_fault and reset_drives_louvers only ever assign elements,
never rebind a row). The embedding therefore carries the single shared inner
list as the field `drivesInErrorShared`, and `drives_in_error_state[l]` is
`drivesInErrorShared` for every l (see `drivesInErrorState`). -/
structure LcsState where
  messages : List StatusMessage
  startPosition : List ℚ
  positionActual : List ℚ
  positionCommanded : List ℚ
  driveCurrentActual : List ℚ
  powerDraw : ℚ
  currentState : List LouverState
  startState : List LouverState
  targetState : List LouverState
  drivesInErrorShared : List Bool
  commandTimeTai : ℚ
  deriving DecidableEq, Repr

/-- The initial LcsStatus produced by `LcsStatus.__init__` (fields that the
claims do not touch, such as torques, temperatures and encoders, are omitted
from the state). -/
def lcsInit : LcsState where
  messages := DEFAULT_MESSAGES
  startPosition := List.replicate LCS_NUM_LOUVERS 0
  positionActual := List.replicate LCS_NUM_LOUVERS 0
  positionCommanded := List.replicate LCS_NUM_LOUVERS 0
  driveCurrentActual := List.replicate (LCS_NUM_LOUVERS * LCS_NUM_MOTORS_PER_LOUVER) 0
  powerDraw := 0
  currentState := List.replicate LCS_NUM_LOUVERS .stationary
  startState := List.replicate LCS_NUM_LOUVERS .stationary
  targetState := List.replicate LCS_NUM_LOUVERS .stationary
  drivesInErrorShared := List.replicate LCS_NUM_MOTORS_PER_LOUVER false
  commandTimeTai := 0

/-- `self.drives_in_error_state[louver_id]`: by the aliasing described on
`LcsState`, every row is the one shared list. -/
def drivesInErrorState (s : LcsState) (_louverId : Nat) : List Bool :=
  s.drivesInErrorShared

/-- `LcsStatus._handle_stopped`: if the target state is STATIONARY the current
state becomes ENGAGING_BRAKES. -/
def handleStopped (louverId : Nat) (s : LcsState) : LcsState :=
  if s.targetState.getD louverId .stationary = .stationary then
    { s with currentState := s.currentState.set louverId .engagingBrakes }
  else s

/-- `LcsStatus._handle_moving`: advance the position of one louver along its
linear profile and stop it once the motion time has elapsed. -/
def handleMoving (currentTai : ℚ) (louverId : Nat) (s : LcsState) : LcsState :=
  let timeNeeded :=
    |s.positionCommanded.getD louverId 0 - s.startPosition.getD louverId 0| /
      LCS_MOTION_VELOCITY
  let timeSoFar := currentTai - s.commandTimeTai
  let timeFrac := if npIsClose timeNeeded 0 then 1 else timeSoFar / timeNeeded
  if timeFrac ≥ 1 then
    { s with
      positionActual :=
        s.positionActual.set louverId (s.positionCommanded.getD louverId 0)
      currentState := s.currentState.set louverId .stopping }
  else
    let distance :=
      s.positionCommanded.getD louverId 0 - s.startPosition.getD louverId 0
    { s with
      positionActual :=
        s.positionActual.set louverId
          (s.startPosition.getD louverId 0 + distance * timeFrac) }

/-- `LcsStatus._handle_stationary`: one step of the per-louver state cycle
towards the STATIONARY target state. -/
def handleStationary (currentTai : ℚ) (louverId : Nat) (s : LcsState) : LcsState :=
  match s.currentState.getD louverId .stationary with
  | .stationary =>
      if s.startState.getD louverId .stationary = .opening ∨
          s.startState.getD louverId .stationary = .closing then
        { s with currentState := s.currentState.set louverId .enablingMotorPower }
      else s
  | .enablingMotorPower =>
      { s with currentState := s.currentState.set louverId .motorPowerOn }
  | .motorPowerOn =>
      { s with currentState := s.currentState.set louverId .goNormal }
  | .goNormal =>
      { s with currentState := s.currentState.set louverId .disengagingBrakes }
  | .disengagingBrakes =>
      { s with currentState := s.currentState.set louverId .brakesDisengaged }
  | .brakesDisengaged =>
      { s with currentState := s.currentState.set louverId .moving }
  | .moving => handleMoving currentTai louverId s
  | .stopping =>
      { s with currentState := s.currentState.set louverId .stopped }
  | .stopped => handleStopped louverId s
  | .engagingBrakes =>
      { s with currentState := s.currentState.set louverId .brakesEngaged }
  | .brakesEngaged =>
      { s with currentState := s.currentState.set louverId .goStationary }
  | .goStationary =>
      { s with currentState := s.currentState.set louverId .disablingMotorPower }
  | .disablingMotorPower =>
      { s with currentState := s.currentState.set louverId .motorPowerOff }
  | .motorPowerOff =>
      { s with
        startState := s.startState.set louverId .stationary
        currentState := s.currentState.set louverId .stationary
        targetState := s.targetState.set louverId .stationary }
  | _ => s

/-- `LcsStatus.evaluate_state`: dispatch on the target state of one louver
(states other than STOPPED and STATIONARY only produce a log warning). -/
def evaluateState (currentTai : ℚ) (louverId : Nat) (s : LcsState) : LcsState :=
  match s.targetState.getD louverId .stationary with
  | .stopped => handleStopped louverId s
  | .stationary => handleStationary currentTai louverId s
  | _ => s

/-- Assign value q to the per-motor slice
`drive_current_actual[louver_id * 2 : (louver_id + 1) * 2]`. -/
def setCurrentSlice (xs : List ℚ) (louverId : Nat) (q : ℚ) : List ℚ :=
  ((xs.set (louverId * LCS_NUM_MOTORS_PER_LOUVER) q).set
    (louverId * LCS_NUM_MOTORS_PER_LOUVER + 1) q)

/-- One iteration of the loop in `LcsStatus.determine_status`: the loop
variable `motion_state` is bound, by `enumerate`, to the current state of the
louver BEFORE `evaluate_state` is awaited for it; `power_draw` is then
(re)assigned on every iteration. -/
def determineStatusStep (louversPowerDraw currentTai : ℚ) (s : LcsState)
    (louverId : Nat) : LcsState :=
  let motionState := s.currentState.getD louverId .stationary
  let s := evaluateState currentTai louverId s
  if motionState = .moving then
    { s with
      driveCurrentActual :=
        setCurrentSlice s.driveCurrentActual louverId (lcsCurrentPerMotor louversPowerDraw)
      powerDraw := louversPowerDraw }
  else
    { s with
      driveCurrentActual := setCurrentSlice s.driveCurrentActual louverId 0
      powerDraw := 0 }

/-- `LcsStatus.determine_status` (state mutation part): iterate the loop body
over all louvers. The trailing llc_status dict copies, among others, the final
`power_draw` value into the key "powerDraw" (see `lcsLlcStatusPowerDraw`). -/
def determineStatus (louversPowerDraw currentTai : ℚ) (s : LcsState) : LcsState :=
  (List.range LCS_NUM_LOUVERS).foldl (determineStatusStep louversPowerDraw currentTai) s

/-- The "powerDraw" entry of the llc_status dict written at the end of
`determine_status`: it copies `self.power_draw`. -/
def lcsLlcStatusPowerDraw (s : LcsState) : ℚ := s.powerDraw

/-- The "status"/"status" entry of the llc_status dict: the list of current
louver states after the loop. -/
def lcsLlcStatusStates (s : LcsState) : List LouverState := s.currentState

/-- `LcsStatus.setLouvers`, the body of the per-louver loop: a louver is only
touched when its requested position lies in [0, 100] AND differs (beyond
numpy.isclose) from the actual position; note the whole `start_position` array
is replaced by a copy of `position_actual` each time a louver is touched.
Python raises IndexError when a touched index is out of range, hence Except. -/
def setLouversStep (acc : Except Unit LcsState) (p : Nat × ℚ) : Except Unit LcsState :=
  match acc with
  | .error e => .error e
  | .ok s =>
  let (louverId, pos) := p
  if 0 ≤ pos ∧ pos ≤ 100 then
    if louverId < s.positionActual.length then
      if ¬ npIsClose (s.positionActual.getD louverId 0) pos then
        if louverId < s.positionCommanded.length then
          let s :=
            if pos > 0 then
              { s with
                startState := s.startState.set louverId .opening
                targetState := s.targetState.set louverId .stationary }
            else
              { s with
                startState := s.startState.set louverId .closing
                targetState := s.targetState.set louverId .stationary }
          pure { s with
            startPosition := s.positionActual
            positionCommanded := s.positionCommanded.set louverId pos }
        else throw ()  -- IndexError on position_commanded[louver_id]
      else pure s
    else throw ()  -- IndexError on position_actual[louver_id]
  else pure s

/-- `LcsStatus.setLouvers`: store the command time, then run the loop over
`enumerate(position)`. -/
def setLouvers (position : List ℚ) (currentTai : ℚ) (s : LcsState) :
    Except Unit LcsState :=
  position.enum.foldl setLouversStep
    (pure { s with commandTimeTai := currentTai })

/-- `LcsStatus.exit_fault`: raise RuntimeError if any louver still has a drive
in error (with the row aliasing this is `any(drivesInErrorShared)` repeated 34
times); otherwise reset the states and messages. -/
def lcsExitFault (currentTai : ℚ) (s : LcsState) : Except String LcsState :=
  if LCS_NUM_LOUVERS ≠ 0 ∧ s.drivesInErrorShared.any id then
    .error "Make sure to reset drives before exiting from fault."
  else
    .ok { s with
      commandTimeTai := currentTai
      startState := List.replicate s.startState.length .goStationary
      targetState := List.replicate s.targetState.length .stationary
      messages := DEFAULT_MESSAGES }

/-- Write the slice values into the shared drives-in-error row:
`for i, val in enumerate(slice): drives_in_error_state[louvers_id][i] = (val == 1)`.
All rows alias the single shared list, so this updates `drivesInErrorShared`. -/
def writeErrorRow (row : List Bool) (slice : List Int) : List Bool :=
  slice.enum.foldl (fun r iv => r.set iv.1 (decide (iv.2 = 1))) row

/-- One iteration of the louvers loop in `LcsStatus.set_fault`: first
`_handle_moving` is awaited for the louver, then the input is read with the
slice `drives_in_error[louvers_id * LCS_NUM_LOUVERS : louvers_id *
LCS_NUM_LOUVERS + LCS_NUM_MOTORS_PER_LOUVER]` (note the stride is
LCS_NUM_LOUVERS = 34, not LCS_NUM_MOTORS_PER_LOUVER = 2; Python slices clamp,
so the slice is empty as soon as louvers_id >= 2), and finally the three state
arrays are set to ERROR for this louver. -/
def setFaultStep (startTai : ℚ) (drivesInError : List Int) (s : LcsState)
    (louversId : Nat) : LcsState :=
  let s := handleMoving startTai louversId s
  let slice := ((drivesInError.drop (louversId * LCS_NUM_LOUVERS)).take
    LCS_NUM_MOTORS_PER_LOUVER)
  { s with
    drivesInErrorShared := writeErrorRow s.drivesInErrorShared slice
    startState := s.startState.set louversId .error
    currentState := s.currentState.set louversId .error
    targetState := s.targetState.set louversId .error }

/-- `LcsStatus.set_fault`: reject a wrong-length input, then run the loop over
all louvers and set the fault messages. -/
def setFault (startTai : ℚ) (drivesInError : List Int) (s : LcsState) :
    Except String LcsState :=
  if drivesInError.length ≠ LCS_NUM_LOUVERS * LCS_NUM_MOTORS_PER_LOUVER then
    .error "The length of drives_in_error is wrong."
  else
    .ok { (List.range LCS_NUM_LOUVERS).foldl (setFaultStep startTai drivesInError) s with
      messages := FAULT_MESSAGES }

/-! ## Command names and response codes (enums.py) -/

/-- `CommandName` (enums.py): every member of the StrEnum. -/
inductive CommandName where
  | closeLouvers | closeShutter | config | crawlAz | crawlEl
  | exitFault | exitFaultAz | exitFaultEl | exitFaultShutter | exitFaultLouvers
  | exitFaultThermal | fans | goStationaryAz | goStationaryEl
  | goStationaryLouvers | goStationaryShutter | home | inflate | moveAz | moveEl
  | openShutter | park | resetDrivesAz | resetDrivesLouvers | resetDrivesShutter
  | restore | setDegradedAz | setDegradedEl | setDegradedLouvers
  | setDegradedShutter | setDegradedMonitoring | setDegradedThermal | setLouvers
  | setNormalAz | setNormalEl | setNormalLouvers | setNormalShutter
  | setNormalMonitoring | setNormalThermal | setPowerManagementMode
  | setTemperature | setZeroAz
  | statusAMCS | statusApSCS | statusCBCS | statusCSCS | statusLCS
  | statusLWSCS | statusMonCS | statusRAD | statusThCS
  | stopAz | stopEl | stopLouvers | stopShutter
  deriving DecidableEq, Repr

/-- The wire string of each command (the StrEnum values in enums.py). -/
def commandNameStr : CommandName → String
  | .closeLouvers => "closeLouvers"
  | .closeShutter => "closeShutter"
  | .config => "config"
  | .crawlAz => "crawlAz"
  | .crawlEl => "crawlEl"
  | .exitFault => "exitFault"
  | .exitFaultAz => "exitFaultAz"
  | .exitFaultEl => "exitFaultEl"
  | .exitFaultShutter => "exitFaultShutter"
  | .exitFaultLouvers => "exitFaultLouvers"
  | .exitFaultThermal => "exitFaultThermal"
  | .fans => "fans"
  | .goStationaryAz => "goStationaryAz"
  | .goStationaryEl => "goStationaryEl"
  | .goStationaryLouvers => "goStationaryLouvers"
  | .goStationaryShutter => "goStationaryShutter"
  | .home => "home"
  | .inflate => "inflate"
  | .moveAz => "moveAz"
  | .moveEl => "moveEl"
  | .openShutter => "openShutter"
  | .park => "park"
  | .resetDrivesAz => "resetDrivesAz"
  | .resetDrivesLouvers => "resetDrivesLouvers"
  | .resetDrivesShutter => "resetDrivesShutter"
  | .restore => "restore"
  | .setDegradedAz => "setDegradedAz"
  | .setDegradedEl => "setDegradedEl"
  | .setDegradedLouvers => "setDegradedLouvers"
  | .setDegradedShutter => "setDegradedShutter"
  | .setDegradedMonitoring => "setDegradedMonitoring"
  | .setDegradedThermal => "setDegradedThermal"
  | .setLouvers => "setLouvers"
  | .setNormalAz => "setNormalAz"
  | .setNormalEl => "setNormalEl"
  | .setNormalLouvers => "setNormalLouvers"
  | .setNormalShutter => "setNormalShutter"
  | .setNormalMonitoring => "setNormalMonitoring"
  | .setNormalThermal => "setNormalThermal"
  | .setPowerManagementMode => "setPowerManagementMode"
  | .setTemperature => "setTemperature"
  | .setZeroAz => "setZeroAz"
  | .statusAMCS => "statusAMCS"
  | .statusApSCS => "statusApSCS"
  | .statusCBCS => "statusCBCS"
  | .statusCSCS => "statusCSCS"
  | .statusLCS => "statusLCS"
  | .statusLWSCS => "statusLWSCS"
  | .statusMonCS => "statusMonCS"
  | .statusRAD => "statusRAD"
  | .statusThCS => "statusThCS"
  | .stopAz => "stopAz"
  | .stopEl => "stopEl"
  | .stopLouvers => "stopLouvers"
  | .stopShutter => "stopShutter"

/-- The test `command_name.startswith("status")` in mtdome_com.py and
`cmd.startswith("status")` in mock_controller.py. -/
def isStatusCommand (c : CommandName) : Bool :=
  (commandNameStr c).startsWith "status"

/-- `ResponseCode` (enums.py). -/
inductive ResponseCode where
  | ok                      -- OK = 0
  | notConnected            -- NOT_CONNECTED = 1
  | unsupported             -- UNSUPPORTED = 2
  | incorrectParameters     -- INCORRECT_PARAMETERS = 3
  | incorrectSource         -- INCORRECT_SOURCE = 4
  | incorrectState          -- INCORRECT_STATE = 5
  | rotatingPartNotReceived -- ROTATING_PART_NOT_RECEIVED = 6
  | rotatingPartNotReplied  -- ROTATING_PART_NOT_REPLIED = 7
  deriving DecidableEq, Repr

/-- The enum values of `ResponseCode`. -/
def responseCodeVal : ResponseCode → Nat
  | .ok => 0
  | .notConnected => 1
  | .unsupported => 2
  | .incorrectParameters => 3
  | .incorrectSource => 4
  | .incorrectState => 5
  | .rotatingPartNotReceived => 6
  | .rotatingPartNotReplied => 7

/-- `LlcName` (enums.py). -/
inductive LlcName where
  | amcs | apscs | cbcs | cscs | lcs | lwscs | moncs | obc | rad | thcs
  deriving DecidableEq, Repr

/-- `ValidSimulationMode` (enums.py). -/
inductive ValidSimulationMode where
  | normalOperations                 -- NORMAL_OPERATIONS = 0
  | simulationWithMockController    -- SIMULATION_WITH_MOCK_CONTROLLER = 1
  | simulationWithoutMockController -- SIMULATION_WITHOUT_MOCK_CONTROLLER = 2
  deriving DecidableEq, Repr

/-! ## MockMTDomeController (mock_controller.py) -/

namespace MockCtrl

/-- The record of how often (and at which current_tai values) the mock
controller has awaited the `exit_fault` method of each of the two state
machines relevant to claim C1. The LWSCS state machine source
(mock_llc/lwscs.py) is not under src/, so its exit_fault call is recorded
abstractly; the LCS call is recorded the same way for symmetry. -/
structure ExitFaultCalls where
  lcsExitFaultTais : List ℚ    -- calls of self.lcs.exit_fault(...)
  lwscsExitFaultTais : List ℚ  -- calls of self.lwscs.exit_fault(...)
  deriving DecidableEq, Repr

/-- `MockMTDomeController.exit_fault_el` (docstring: "Exit LWSCS from fault
state."); its body awaits `self.lcs.exit_fault(self.current_tai)`. -/
def exit_fault_el (currentTai : ℚ) (c : ExitFaultCalls) : ExitFaultCalls :=
  { c with lcsExitFaultTais := c.lcsExitFaultTais ++ [currentTai] }

/-- `MockMTDomeController.exit_fault_louvers` (docstring: "Exit LCS from fault
state."); its body awaits `self.lwscs.exit_fault(self.current_tai)`. -/
def exit_fault_louvers (currentTai : ℚ) (c : ExitFaultCalls) : ExitFaultCalls :=
  { c with lwscsExitFaultTais := c.lwscsExitFaultTais ++ [currentTai] }

/-- The `dispatch_dict` entries for the exitFault commands in
`MockMTDomeController.__init__`: exitFaultEl is dispatched to the method
`exit_fault_el` and exitFaultLouvers to `exit_fault_louvers`. Other commands
are not relevant to the recorded calls. -/
def dispatchExitFault (cmd : CommandName) (currentTai : ℚ) (c : ExitFaultCalls) :
    ExitFaultCalls :=
  match cmd with
  | .exitFaultEl => exit_fault_el currentTai c
  | .exitFaultLouvers => exit_fault_louvers currentTai c
  | _ => c

/-- Parameter names declared by `MockMTDomeController.__init__` in
mock_controller.py (besides self): port, log, connect_callback,
communication_error. -/
def mockMTDomeControllerInitParams : List String :=
  ["port", "log", "connect_callback", "communication_error"]

/-- Keyword arguments passed to `MockMTDomeController(...)` by
`MTDomeCom._start_mock_ctrl` in mtdome_com.py. -/
def startMockCtrlKwargs : List String :=
  ["port", "log", "communication_error", "timeout_error", "new_thermal_schema"]

/-- Python keyword-argument binding: a call raises TypeError unless every
passed keyword names a declared parameter. -/
def pythonKwargsAccepted (declared passed : List String) : Bool :=
  passed.all declared.contains

/-- `MTDomeCom.connect`, the part reached when the simulation mode is
SIMULATION_WITH_MOCK_CONTROLLER: `_start_mock_ctrl` constructs
`MockMTDomeController(port=0, log=..., communication_error=...,
timeout_error=..., new_thermal_schema=...)`. The construction succeeds only
when the passed keywords bind; otherwise Python raises TypeError before the
client is created. -/
def connectStartsMockCtrl (mode : ValidSimulationMode) : Except String Unit :=
  if mode = .simulationWithMockController then
    if pythonKwargsAccepted mockMTDomeControllerInitParams startMockCtrlKwargs then
      .ok ()
    else
      .error "TypeError: MockMTDomeController.__init__ got an unexpected keyword argument"
  else .ok ()

/-- The reply written by `MockMTDomeController.read_and_dispatch`. -/
structure MockReply where
  commandId : Nat
  response : ResponseCode
  timeout : ℚ
  deriving DecidableEq, Repr

/-- An incoming setLouvers command frame. Modelled from the spec:
`encoding_tools.validate` and the JSON schema registry are not under src/;
per section 4.2.7(b) of the spec a frame is schema-valid when it is a JSON
object carrying commandId, a known command name and a parameters object, so a
frame represented by this structure (a commandId plus a numeric position
array) passes validation; the schema does not constrain the numeric values. -/
structure SetLouversFrame where
  commandId : Nat
  position : List ℚ
  deriving DecidableEq, Repr

/-- `LONG_DURATION = 20`, the duration substituted when a handler returns
None. -/
def LONG_DURATION : ℚ := 20

/-- `MockMTDomeController.read_and_dispatch` for a schema-valid setLouvers
frame, with communication_error False and no network interruption: the
dispatch_dict maps setLouvers to `set_louvers`, which awaits
`self.lcs.setLouvers(position, self.current_tai)` (returning None, so the
duration becomes LONG_DURATION); any exception from the handler is mapped to
a reply with response INCORRECT_PARAMETERS and timeout -1. -/
def readAndDispatchSetLouvers (frame : SetLouversFrame) (currentTai : ℚ)
    (lcs : LcsState) : MockReply × LcsState :=
  match setLouvers frame.position currentTai lcs with
  | .ok s => (⟨frame.commandId, .ok, LONG_DURATION⟩, s)
  | .error _ => (⟨frame.commandId, .incorrectParameters, -1⟩, lcs)

end MockCtrl

/-! ## MTDomeCom, the bridge (mtdome_com.py) -/

namespace Bridge

/-- `_TIMEOUT = 20` (sec), used when waiting for a command reply. -/
def _TIMEOUT : ℚ := 20

/-- `COMMANDS_REPLIED_PERIOD = 600` (sec). -/
def COMMANDS_REPLIED_PERIOD : ℚ := 600

/-- `COMMANDS_DISABLED_FOR_COMMISSIONING` (mtdome_com.py). -/
def COMMANDS_DISABLED_FOR_COMMISSIONING : List CommandName :=
  [.closeLouvers, .crawlEl, .fans, .goStationaryEl, .goStationaryLouvers,
   .inflate, .moveEl, .setLouvers, .setTemperature, .stopEl, .stopLouvers]

/-! ### Telemetry pre-processing (`MTDomeCom._pre_process_status`) -/

/-- The telemetry keys that `_pre_process_status` inspects by name; every other
key is represented by `otherKey`. -/
inductive StatusKey where
  | positionActual
  | positionCommanded
  | velocityActual
  | velocityCommanded
  | timestampUTC
  | timestamp
  | otherKey (n : Nat)
  deriving DecidableEq, Repr

/-- `_AMCS_KEYS_OFFSET` (mtdome_com.py). -/
def _AMCS_KEYS_OFFSET : List StatusKey := [.positionActual, .positionCommanded]

/-- `_KEYS_IN_RADIANS` (mtdome_com.py):
{velocityActual, velocityCommanded}.union(_AMCS_KEYS_OFFSET). -/
def _KEYS_IN_RADIANS : List StatusKey :=
  [.velocityActual, .velocityCommanded] ++ _AMCS_KEYS_OFFSET

/-- `_KEYS_TO_ROUND` (mtdome_com.py): only ApSCS positionActual, to 2
decimals. -/
def keysToRound (llcName : LlcName) (key : StatusKey) : Option Nat :=
  if llcName = .apscs ∧ key = .positionActual then some 2 else none

/-- The value transformation a single key undergoes in the loop of
`_pre_process_status`, parameterised by the external helpers `math.degrees`
(`deg`) and `lsst.ts.utils.angle_wrap_nonnegative` (`wrap`, wrapping a degree
value into [0, 360)). -/
def preProcessValue (deg wrap : ℚ → ℚ) (llcName : LlcName) (key : StatusKey)
    (v : ℚ) : ℚ :=
  if key ∈ _KEYS_IN_RADIANS ∧ (llcName = .amcs ∨ llcName = .lwscs) then
    let converted := deg v
    if key ∈ _AMCS_KEYS_OFFSET ∧ llcName = .amcs then
      wrap (converted - DOME_AZIMUTH_OFFSET)
    else converted
  else v

/-- The key renaming in `_pre_process_status`: timestampUTC becomes
timestamp. -/
def preProcessKey (key : StatusKey) : StatusKey :=
  if key = .timestampUTC then .timestamp else key

/-- `MTDomeCom._round_telemetry_values` for a scalar entry, parameterised by
the external `round` builtin (`rnd n v` rounds v to n decimals); `+ 0.0` is
added to suppress signed zeros, which is the identity on rationals. -/
def roundTelemetryValue (rnd : Nat → ℚ → ℚ) (llcName : LlcName)
    (key : StatusKey) (v : ℚ) : ℚ :=
  match keysToRound llcName key with
  | some n => rnd n v + 0
  | none => v

/-- `MTDomeCom._pre_process_status` for a status dict of scalar entries: each
entry is renamed and transformed independently, then the rounding pass runs
over the resulting telemetry. -/
def preProcessStatus (deg wrap : ℚ → ℚ) (rnd : Nat → ℚ → ℚ)
    (llcName : LlcName) (status : List (StatusKey × ℚ)) :
    List (StatusKey × ℚ) :=
  status.map fun kv =>
    (preProcessKey kv.1,
      roundTelemetryValue rnd llcName (preProcessKey kv.1)
        (preProcessValue deg wrap llcName kv.1 kv.2))

/-! ### write_then_read_reply (`MTDomeCom.write_then_read_reply`) -/

/-- `CommandTime` (mtdome_com.py). -/
structure CommandTime where
  command : CommandName
  tai : ℚ
  deriving DecidableEq, Repr

/-- The communication error report written to
`self.communication_error_report`: command_name, exception, response_code. -/
structure Report where
  commandName : CommandName
  exceptionMsg : String
  responseCode : Nat
  deriving DecidableEq, Repr

/-- The reply fields of the JSON read back for a command: the optional
commandId and the response code (an integer on the wire). -/
structure ReplyData where
  commandId : Option Nat
  response : Nat
  deriving DecidableEq, Repr

/-- `REPLY_DATA_FOR_DISABLED_COMMANDS` = {"response": 0, "timeout": 0}: no
commandId. -/
def REPLY_DATA_FOR_DISABLED_COMMANDS : ReplyData := ⟨none, 0⟩

/-- The outcome of awaiting `self.client.read_json()` under
`asyncio.timeout(_TIMEOUT)`: the reply arrived in time, the wait exceeded
_TIMEOUT (TimeoutError), or the task was cancelled. -/
inductive ReadOutcome where
  | reply (d : ReplyData)
  | timedOut
  | cancelled
  deriving DecidableEq, Repr

/-- The exceptions `write_then_read_reply` can raise. -/
inductive BridgeError where
  | runtimeClientNone          -- RuntimeError: self.client == None
  | timeoutError               -- re-raised TimeoutError
  | valueError (response : Nat) -- ValueError for a non-OK response
  deriving DecidableEq, Repr

/-- The bridge state that `write_then_read_reply` touches. The
`communicationErrorReport` field is `none` when the report dict is empty. -/
structure BridgeState where
  commandsWithoutReply : List (Nat × CommandTime)
  communicationErrorReport : Option Report
  hasNonStatusCommand : Bool
  deriving DecidableEq, Repr

/-- `MTDomeCom.write_then_read_reply`. The freshly generated command id (from
`next(self._index_iter)`) is passed as `commandId`; the outcome of the bounded
reply read is passed as `outcome`; `clientPresent` is `self.client is not
None`. The steps mirror the source: (1) insert the command into
`commands_without_reply`; (2) under the communication lock clear the
non-status flag for non-status commands; (3) raise RuntimeError without a
client; (4) skip sending for commissioning-disabled commands in simulation
mode 0, substituting REPLY_DATA_FOR_DISABLED_COMMANDS; (5) on TimeoutError
record the communication error report (response code UNSUPPORTED) and
re-raise, on cancellation substitute REPLY_DATA_FOR_DISABLED_COMMANDS;
(6) correlate the reply commandId and pop the table entry; (7) raise
ValueError for a non-OK response after recording the report, otherwise clear
the report and return the data. -/
def write_then_read_reply (simulationMode : ValidSimulationMode)
    (clientPresent : Bool) (commandId : Nat) (command : CommandName)
    (sendTai : ℚ) (outcome : ReadOutcome) (s : BridgeState) :
    Except BridgeError ReplyData × BridgeState :=
  let s := { s with
    commandsWithoutReply := s.commandsWithoutReply ++ [(commandId, ⟨command, sendTai⟩)] }
  let s := if ¬ isStatusCommand command ∧ s.hasNonStatusCommand then
    { s with hasNonStatusCommand := false } else s
  if ¬ clientPresent then
    (.error .runtimeClientNone, s)
  else
    let disabledCommands : List CommandName :=
      if simulationMode = .normalOperations then
        COMMANDS_DISABLED_FOR_COMMISSIONING
      else []
    if command ∈ disabledCommands then
      -- data = REPLY_DATA_FOR_DISABLED_COMMANDS; response 0 is OK.
      (.ok REPLY_DATA_FOR_DISABLED_COMMANDS,
        { s with communicationErrorReport := none })
    else
      match outcome with
      | .timedOut =>
          let report := Report.mk command "TimeoutError" (responseCodeVal .unsupported)
          (.error .timeoutError, { s with communicationErrorReport := some report })
      | other =>
        let data := match other with
          | .cancelled => REPLY_DATA_FOR_DISABLED_COMMANDS
          | .reply d => d
          | .timedOut => REPLY_DATA_FOR_DISABLED_COMMANDS  -- unreachable
        let s := match data.commandId with
          | none => s  -- only an error log
          | some receivedCommandId =>
              if s.commandsWithoutReply.any (fun e => e.1 = receivedCommandId) then
                { s with commandsWithoutReply :=
                    s.commandsWithoutReply.filter (fun e => e.1 ≠ receivedCommandId) }
              else s  -- unknown commandId: only a warning log
        if data.response ≠ 0 then
          let report := Report.mk command "ValueError" data.response
          (.error (.valueError data.response),
            { s with communicationErrorReport := some report })
        else
          (.ok data, { s with communicationErrorReport := none })

/-! ### Outstanding-commands watchdog
(`MTDomeCom.check_all_commands_have_replies`) -/

/-- The outcome of one watchdog run: the updated table, the error-logged and
removed command ids, and the warn-logged command ids. -/
structure WatchdogResult where
  table : List (Nat × CommandTime)
  commandsToRemove : List Nat
  commandsStillWaiting : List Nat
  deriving DecidableEq, Repr

/-- The set commands_to_remove built by the classification loop of
`check_all_commands_have_replies`: the ids of the entries whose age is at
least 2 * COMMANDS_REPLIED_PERIOD. -/
def commandsToRemoveOf (currentTai : ℚ) (table : List (Nat × CommandTime)) :
    List Nat :=
  (table.filter fun e => currentTai - e.2.tai ≥ 2 * COMMANDS_REPLIED_PERIOD).map
    Prod.fst

/-- The set commands_still_waiting built by the classification loop of
`check_all_commands_have_replies`: the ids of the entries that fall into the
elif branch (age at least COMMANDS_REPLIED_PERIOD but not in
commands_to_remove). -/
def commandsStillWaitingOf (currentTai : ℚ) (table : List (Nat × CommandTime)) :
    List Nat :=
  (table.filter fun e =>
    ¬ (currentTai - e.2.tai ≥ 2 * COMMANDS_REPLIED_PERIOD) ∧
      currentTai - e.2.tai ≥ COMMANDS_REPLIED_PERIOD).map Prod.fst

/-- `MTDomeCom.check_all_commands_have_replies`: classify each outstanding
entry by its age (if its age is at least 2 * COMMANDS_REPLIED_PERIOD it joins
commands_to_remove, elif at least COMMANDS_REPLIED_PERIOD it joins
commands_still_waiting), then pop every entry of commands_to_remove; a
warning is logged for commands_still_waiting and an error for
commands_to_remove when non-empty. -/
def check_all_commands_have_replies (currentTai : ℚ)
    (table : List (Nat × CommandTime)) : WatchdogResult :=
  ⟨table.filter fun e => e.1 ∉ commandsToRemoveOf currentTai table,
    commandsToRemoveOf currentTai table,
    commandsStillWaitingOf currentTai table⟩

/-! ### Power management (`MTDomeCom._schedule_command_if_power_management_active`,
`MTDomeCom.set_power_management_mode`) -/

/-- `PowerManagementMode` (lsst.ts.xml). -/
inductive PowerManagementMode where
  | noPowerManagement | operations | maintenance | emergency
  deriving DecidableEq, Repr

/-- A parameter value passed along with a command. -/
inductive ParamValue where
  | num (q : ℚ)
  | arr (qs : List ℚ)
  deriving DecidableEq, Repr

/-- `ScheduledCommand` (enums.py): a command with its parameters. -/
structure ScheduledCommand where
  command : CommandName
  params : List (String × ParamValue)
  deriving DecidableEq, Repr

/-- Modelled from the spec: `PowerManagementHandler.schedule_command` lives in
the power_management package, which is not under src/. Per spec section 4.4.2
it appends the scheduled command (with its mode-derived priority and a FIFO
sequence number) to the command queue; for the claims below only the queue
contents in arrival order matter. -/
def schedule_command (queue : List ScheduledCommand) (c : ScheduledCommand) :
    List ScheduledCommand :=
  queue ++ [c]

/-- The bridge state touched by the power-management paths: the current mode,
the handler's command queue, the non-status flag, and the sequence of
commands given to `write_then_read_reply` (the link). -/
structure PMState where
  mode : PowerManagementMode
  queue : List ScheduledCommand
  hasNonStatusCommand : Bool
  written : List ScheduledCommand
  deriving DecidableEq, Repr

/-- `MTDomeCom._schedule_command_if_power_management_active`: with power
management inactive the non-status flag is set and the command goes to
`write_then_read_reply` immediately; otherwise a ScheduledCommand is built
and handed to `PowerManagementHandler.schedule_command`. -/
def _schedule_command_if_power_management_active (command : CommandName)
    (params : List (String × ParamValue)) (s : PMState) : PMState :=
  if s.mode = .noPowerManagement then
    { s with
      hasNonStatusCommand := true
      written := s.written ++ [⟨command, params⟩] }
  else
    { s with queue := schedule_command s.queue ⟨command, params⟩ }

/-- `MTDomeCom.move_el`: radians conversion (`rad` embeds math.radians)
then `_schedule_command_if_power_management_active`. -/
def move_el (rad : ℚ → ℚ) (position : ℚ) (s : PMState) : PMState :=
  _schedule_command_if_power_management_active .moveEl
    [("position", .num (rad position))] s

/-- `MTDomeCom.crawl_el`. -/
def crawl_el (rad : ℚ → ℚ) (velocity : ℚ) (s : PMState) : PMState :=
  _schedule_command_if_power_management_active .crawlEl
    [("velocity", .num (rad velocity))] s

/-- `MTDomeCom.set_louvers`. -/
def set_louvers (position : List ℚ) (s : PMState) : PMState :=
  _schedule_command_if_power_management_active .setLouvers
    [("position", .arr position)] s

/-- `MTDomeCom.close_louvers`. -/
def close_louvers (s : PMState) : PMState :=
  _schedule_command_if_power_management_active .closeLouvers [] s

/-- `MTDomeCom.open_shutter`. -/
def open_shutter (s : PMState) : PMState :=
  _schedule_command_if_power_management_active .openShutter [] s

/-- `MTDomeCom.close_shutter`. -/
def close_shutter (s : PMState) : PMState :=
  _schedule_command_if_power_management_active .closeShutter [] s

/-- `MTDomeCom.fans`. -/
def fans (speed : ℚ) (s : PMState) : PMState :=
  _schedule_command_if_power_management_active .fans [("speed", .num speed)] s

/-- `MTDomeCom.home`: of all subsystems in the bitmask only APSCS appears in
`set_home_command_dict` (mapped to CommandName.HOME); the others are logged
and skipped, so the state changes exactly when APSCS is selected. -/
def home (apscsSelected : Bool) (s : PMState) : PMState :=
  if apscsSelected then
    _schedule_command_if_power_management_active .home [] s
  else s

/-- `MTDomeCom.set_power_management_mode`: a requested NO_POWER_MANAGEMENT
mode only logs a warning, a requested mode equal to the current one only logs
a warning, and otherwise the handler's command queue is drained with
get_nowait and the mode is replaced. -/
def set_power_management_mode (s : PMState)
    (powerManagementMode : PowerManagementMode) : PMState :=
  if powerManagementMode = .noPowerManagement then s
  else if powerManagementMode = s.mode then s
  else { s with mode := powerManagementMode, queue := [] }

end Bridge

/-! ## Statements and inputs used by the claim theorems -/

/-- Claim C3 as stated, as a function of the spec-modelled LOUVERS_POWER_DRAW
value: after every call to determine_status the reported powerDraw equals
LOUVERS_POWER_DRAW if at least one of the 34 louvers is in state MOVING (the
states the loop examines, i.e. those current when determine_status is
called), and 0.0 if no louver is moving. -/
def lcsPowerDrawClaim (louversPowerDraw : ℚ) : Prop :=
  ∀ (currentTai : ℚ) (s : LcsState),
    s.currentState.length = LCS_NUM_LOUVERS →
    (LouverState.moving ∈ s.currentState →
      lcsLlcStatusPowerDraw (determineStatus louversPowerDraw currentTai s) =
        louversPowerDraw) ∧
    (LouverState.moving ∉ s.currentState →
      lcsLlcStatusPowerDraw (determineStatus louversPowerDraw currentTai s) = 0)

/-- A concrete LcsStatus state with louver 0 half-way through a setLouvers
motion (commanded 100, started at 0 at tai 0, so still MOVING at tai 15) and
all other louvers stationary. -/
def c3CexState : LcsState :=
  { lcsInit with
    currentState := lcsInit.currentState.set 0 .moving
    targetState := lcsInit.targetState.set 0 .stationary
    positionCommanded := lcsInit.positionCommanded.set 0 100 }

/-- A setLouvers position array whose first entry (150) lies outside
[0, 100] while all other entries are 0. -/
def c4CexPosition : List ℚ := 150 :: List.replicate 33 0

/-! ## Helper lemmas about the louvers state machine -/

theorem handleStopped_currentState_getElem (l m : Nat) (h : l ≠ m) (s : LcsState) :
    (handleStopped l s).currentState[m]? = s.currentState[m]? := by
  unfold handleStopped
  split <;> simp [List.getElem?_set_ne h]

theorem handleMoving_currentState_getElem (tai : ℚ) (l m : Nat) (h : l ≠ m)
    (s : LcsState) :
    (handleMoving tai l s).currentState[m]? = s.currentState[m]? := by
  simp only [handleMoving]
  split <;> (try split) <;> simp [List.getElem?_set_ne h]

theorem handleStationary_currentState_getElem (tai : ℚ) (l m : Nat) (h : l ≠ m)
    (s : LcsState) :
    (handleStationary tai l s).currentState[m]? = s.currentState[m]? := by
  unfold handleStationary
  split <;>
    (try split) <;>
    simp [List.getElem?_set_ne h, handleStopped_currentState_getElem l m h,
      handleMoving_currentState_getElem tai l m h]

theorem evaluateState_currentState_getElem (tai : ℚ) (l m : Nat) (h : l ≠ m)
    (s : LcsState) :
    (evaluateState tai l s).currentState[m]? = s.currentState[m]? := by
  unfold evaluateState
  split <;>
    simp [handleStopped_currentState_getElem l m h,
      handleStationary_currentState_getElem tai l m h]

theorem determineStatusStep_currentState_getElem (lpd tai : ℚ) (l m : Nat)
    (h : l ≠ m) (s : LcsState) :
    (determineStatusStep lpd tai s l).currentState[m]? = s.currentState[m]? := by
  simp only [determineStatusStep]
  split <;> simp [evaluateState_currentState_getElem tai l m h]

theorem determineStatusStep_powerDraw (lpd tai : ℚ) (l : Nat) (s : LcsState) :
    (determineStatusStep lpd tai s l).powerDraw =
      if s.currentState.getD l .stationary = .moving then lpd else 0 := by
  simp only [determineStatusStep]
  split <;> simp_all

theorem foldl_determineStatusStep_currentState_getElem (lpd tai : ℚ) (m : Nat) :
    ∀ (L : List Nat) (s : LcsState), (∀ i ∈ L, i ≠ m) →
      ((L.foldl (determineStatusStep lpd tai) s).currentState[m]? =
        s.currentState[m]?) := by
  intro L
  induction L with
  | nil => intro s _; rfl
  | cons i L ih =>
      intro s hL
      rw [List.foldl_cons, ih _ (fun j hj => hL j (List.mem_cons_of_mem i hj))]
      exact determineStatusStep_currentState_getElem lpd tai i m
        (hL i (List.mem_cons_self i L)) s

/-- The final power_draw value of determine_status is decided by the last loop
iteration alone: it reflects only whether louver 33 was MOVING when the loop
examined it (its state when determine_status was called, since the earlier
iterations only mutate their own louver). -/
theorem determineStatus_powerDraw_eq_last_louver (lpd tai : ℚ) (s : LcsState) :
    lcsLlcStatusPowerDraw (determineStatus lpd tai s) =
      if s.currentState.getD 33 .stationary = .moving then lpd else 0 := by
  unfold lcsLlcStatusPowerDraw determineStatus
  have h34 : List.range LCS_NUM_LOUVERS = List.range 33 ++ [33] := by
    rw [show LCS_NUM_LOUVERS = 33 + 1 from rfl, List.range_succ]
  rw [h34, List.foldl_append, List.foldl_cons, List.foldl_nil,
    determineStatusStep_powerDraw]
  rw [List.getD_eq_getElem?_getD, List.getD_eq_getElem?_getD,
    foldl_determineStatusStep_currentState_getElem lpd tai 33
      (List.range 33) s (fun i hi => Nat.ne_of_lt (List.mem_range.mp hi))]

theorem handleMoving_drivesInErrorShared (tai : ℚ) (l : Nat) (s : LcsState) :
    (handleMoving tai l s).drivesInErrorShared = s.drivesInErrorShared := by
  simp only [handleMoving]
  split <;> (try split) <;> rfl

theorem setFaultStep_drivesInErrorShared (tai : ℚ) (d : List Int) (s : LcsState)
    (l : Nat) :
    (setFaultStep tai d s l).drivesInErrorShared =
      writeErrorRow s.drivesInErrorShared
        ((d.drop (l * LCS_NUM_LOUVERS)).take LCS_NUM_MOTORS_PER_LOUVER) := by
  simp only [setFaultStep, handleMoving_drivesInErrorShared]

theorem foldl_setFaultStep_drivesInErrorShared (tai : ℚ) (d : List Int) :
    ∀ (L : List Nat) (s : LcsState),
      (L.foldl (setFaultStep tai d) s).drivesInErrorShared =
        L.foldl (fun r l =>
          writeErrorRow r ((d.drop (l * LCS_NUM_LOUVERS)).take
            LCS_NUM_MOTORS_PER_LOUVER)) s.drivesInErrorShared := by
  intro L
  induction L with
  | nil => intro s; rfl
  | cons i L ih =>
      intro s
      rw [List.foldl_cons, List.foldl_cons, ih,
        setFaultStep_drivesInErrorShared]

theorem writeErrorRow_length (slice : List Int) (r : List Bool) :
    (writeErrorRow r slice).length = r.length := by
  unfold writeErrorRow
  generalize slice.enum = ps
  induction ps generalizing r with
  | nil => rfl
  | cons p ps ih => rw [List.foldl_cons, ih, List.length_set]

theorem writeErrorRow_two (r : List Bool) (a b : Int) (h : r.length = 2) :
    writeErrorRow r [a, b] = [decide (a = 1), decide (b = 1)] := by
  rcases List.length_eq_two.mp h with ⟨x, y, rfl⟩
  rfl

theorem take_two_of_lt (d : List Int) (n : Nat) (h : n + 1 < d.length) :
    (d.drop n).take 2 = [d.getD n 0, d.getD (n + 1) 0] := by
  rw [← List.getElem_cons_drop d n (Nat.lt_of_succ_lt h),
    ← List.getElem_cons_drop d (n + 1) h]
  rw [List.getD_eq_getElem d 0 (Nat.lt_of_succ_lt h), List.getD_eq_getElem d 0 h]
  rfl

theorem foldWrite_ge_two (d : List Int) (hd : d.length = 68) :
    ∀ (L : List Nat) (r : List Bool), (∀ l ∈ L, 2 ≤ l) →
      L.foldl (fun r l =>
        writeErrorRow r ((d.drop (l * LCS_NUM_LOUVERS)).take
          LCS_NUM_MOTORS_PER_LOUVER)) r = r := by
  intro L
  induction L with
  | nil => intro r _; rfl
  | cons i L ih =>
      intro r hL
      have hge : 2 ≤ i := hL i (List.mem_cons_self i L)
      have hnil : d.drop (i * LCS_NUM_LOUVERS) = [] := by
        apply List.drop_eq_nil_of_le
        rw [hd]
        show 68 ≤ i * 34
        omega
      rw [List.foldl_cons, hnil]
      exact ih r (fun j hj => hL j (List.mem_cons_of_mem i hj))

/-- The shared drives-in-error row left behind by set_fault: whatever state it
started from, after the loop it equals the two entries at indices 34 and 35
of the input (iteration 1 reads the slice starting at 1 * 34 and overwrites
whatever iteration 0 wrote; iterations 2 and later read empty slices). -/
theorem setFault_row_spec (tai : ℚ) (d : List Int) (s : LcsState)
    (hd : d.length = LCS_NUM_LOUVERS * LCS_NUM_MOTORS_PER_LOUVER)
    (hrow : s.drivesInErrorShared.length = LCS_NUM_MOTORS_PER_LOUVER) :
    ∃ s2, setFault tai d s = .ok s2 ∧
      s2.drivesInErrorShared =
        [decide (d.getD 34 0 = 1), decide (d.getD 35 0 = 1)] := by
  unfold setFault
  rw [if_neg (by simp [hd])]
  refine ⟨_, rfl, ?_⟩
  show ((List.range LCS_NUM_LOUVERS).foldl (setFaultStep tai d) s).drivesInErrorShared = _
  rw [foldl_setFaultStep_drivesInErrorShared]
  have hr : List.range LCS_NUM_LOUVERS = 0 :: 1 :: List.range' 2 32 := by
    rw [show LCS_NUM_LOUVERS = 34 from rfl, List.range_eq_range']
    rfl
  rw [hr, List.foldl_cons, List.foldl_cons]
  have hd68 : d.length = 68 := hd
  rw [foldWrite_ge_two d hd68 _ _ (by
    intro l hl
    rcases List.mem_range'.mp hl with ⟨i, _, rfl⟩
    omega)]
  have h1 : (d.drop (1 * LCS_NUM_LOUVERS)).take LCS_NUM_MOTORS_PER_LOUVER =
      [d.getD 34 0, d.getD 35 0] := by
    show (d.drop 34).take 2 = _
    exact take_two_of_lt d 34 (by omega)
  rw [h1]
  apply writeErrorRow_two
  rw [writeErrorRow_length, hrow]
  rfl

theorem lcsExitFault_error_iff (tai : ℚ) (s : LcsState) (a b : Bool)
    (h : s.drivesInErrorShared = [a, b]) :
    (∃ e, lcsExitFault tai s = .error e) ↔ (a = true ∨ b = true) := by
  unfold lcsExitFault
  rw [h]
  split
  · rename_i hc
    simp only [List.any_cons, List.any_nil, id, Bool.or_false] at hc
    simp only [LCS_NUM_LOUVERS] at hc
    constructor
    · intro _
      simpa using hc.2
    · intro _
      exact ⟨_, rfl⟩
  · rename_i hc
    simp only [LCS_NUM_LOUVERS] at hc
    constructor
    · rintro ⟨e, he⟩
      cases he
    · intro hab
      exfalso
      apply hc
      refine ⟨by omega, ?_⟩
      simpa using hab

theorem setLouversStep_skip_out_of_range (s : LcsState) (i : Nat) (p : ℚ)
    (h : ¬ (0 ≤ p ∧ p ≤ 100)) : setLouversStep (.ok s) (i, p) = .ok s := by
  simp only [setLouversStep]
  rw [if_neg h]
  rfl

theorem setLouversStep_skip_close (s : LcsState) (i : Nat) (p : ℚ)
    (h : 0 ≤ p ∧ p ≤ 100) (hb : i < s.positionActual.length)
    (hc : npIsClose (s.positionActual.getD i 0) p) :
    setLouversStep (.ok s) (i, p) = .ok s := by
  simp only [setLouversStep]
  rw [if_pos h, if_pos hb, if_neg (not_not_intro hc)]
  rfl

theorem setLouversStep_touch (s : LcsState) (i : Nat) (p : ℚ)
    (h : 0 ≤ p ∧ p ≤ 100) (hb1 : i < s.positionActual.length)
    (hc : ¬ npIsClose (s.positionActual.getD i 0) p)
    (hb2 : i < s.positionCommanded.length) :
    setLouversStep (.ok s) (i, p) = .ok { s with
      startState := s.startState.set i (if p > 0 then .opening else .closing)
      targetState := s.targetState.set i .stationary
      startPosition := s.positionActual
      positionCommanded := s.positionCommanded.set i p } := by
  simp only [setLouversStep]
  rw [if_pos h, if_pos hb1, if_pos hc, if_pos hb2]
  by_cases hp : p > 0
  · simp only [if_pos hp]
    rfl
  · simp only [if_neg hp]
    rfl

/-- The setLouvers loop never throws when every in-range entry's index is in
bounds, never touches position_actual, preserves the length of
position_commanded, and leaves the commanded position and the start/target
states of a louver unchanged when every entry for that louver lies outside
[0, 100]. -/
theorem setLouvers_fold_spec :
    ∀ (ps : List (Nat × ℚ)) (s : LcsState),
      (∀ q ∈ ps, 0 ≤ q.2 ∧ q.2 ≤ 100 →
        q.1 < s.positionActual.length ∧ q.1 < s.positionCommanded.length) →
      ∃ s2, ps.foldl setLouversStep (.ok s) = .ok s2 ∧
        s2.positionActual = s.positionActual ∧
        s2.positionCommanded.length = s.positionCommanded.length ∧
        ∀ l, (∀ q ∈ ps, q.1 = l → ¬ (0 ≤ q.2 ∧ q.2 ≤ 100)) →
          s2.positionCommanded[l]? = s.positionCommanded[l]? ∧
          s2.startState[l]? = s.startState[l]? ∧
          s2.targetState[l]? = s.targetState[l]? := by
  intro ps
  induction ps with
  | nil =>
      intro s _
      exact ⟨s, rfl, rfl, rfl, fun l _ => ⟨rfl, rfl, rfl⟩⟩
  | cons q ps ih =>
      intro s hb
      obtain ⟨i, p⟩ := q
      by_cases hin : (0 ≤ p ∧ p ≤ 100)
      · have hbq := hb (i, p) (List.mem_cons_self _ _) hin
        by_cases hclose : npIsClose (s.positionActual.getD i 0) p
        · rw [List.foldl_cons, setLouversStep_skip_close s i p hin hbq.1 hclose]
          obtain ⟨s2, hfold, hpa, hlen, hunt⟩ :=
            ih s (fun q hq => hb q (List.mem_cons_of_mem _ hq))
          exact ⟨s2, hfold, hpa, hlen, fun l hl =>
            hunt l (fun q hq hq1 => hl q (List.mem_cons_of_mem _ hq) hq1)⟩
        · rw [List.foldl_cons, setLouversStep_touch s i p hin hbq.1 hclose hbq.2]
          obtain ⟨s2, hfold, hpa, hlen, hunt⟩ := ih { s with
              startState := s.startState.set i (if p > 0 then .opening else .closing)
              targetState := s.targetState.set i .stationary
              startPosition := s.positionActual
              positionCommanded := s.positionCommanded.set i p } (by
            intro q hq hqin
            have := hb q (List.mem_cons_of_mem _ hq) hqin
            simpa using this)
          refine ⟨s2, hfold, by simpa using hpa, by simpa using hlen, ?_⟩
          intro l hl
          have hil : i ≠ l := by
            intro hEq
            exact hl (i, p) (List.mem_cons_self _ _) hEq hin
          have h2 := hunt l (fun q hq hq1 => hl q (List.mem_cons_of_mem _ hq) hq1)
          refine ⟨?_, ?_, ?_⟩
          · rw [h2.1]
            simpa using List.getElem?_set_ne hil
          · rw [h2.2.1]
            simpa using List.getElem?_set_ne hil
          · rw [h2.2.2]
            simpa using List.getElem?_set_ne hil
      · rw [List.foldl_cons, setLouversStep_skip_out_of_range s i p hin]
        obtain ⟨s2, hfold, hpa, hlen, hunt⟩ :=
          ih s (fun q hq => hb q (List.mem_cons_of_mem _ hq))
        exact ⟨s2, hfold, hpa, hlen, fun l hl =>
          hunt l (fun q hq hq1 => hl q (List.mem_cons_of_mem _ hq) hq1)⟩

/-- LcsStatus.setLouvers completes without an exception whenever the position
array is no longer than the per-louver arrays, and every entry outside
[0, 100] leaves its louver's commanded position and start/target states
unchanged. -/
theorem setLouvers_spec (position : List ℚ) (tai : ℚ) (s : LcsState)
    (hb : ∀ i, i < position.length →
      i < s.positionActual.length ∧ i < s.positionCommanded.length) :
    ∃ s2, setLouvers position tai s = .ok s2 ∧
      ∀ (l : Nat) (p : ℚ), position[l]? = some p → ¬ (0 ≤ p ∧ p ≤ 100) →
        s2.positionCommanded[l]? = s.positionCommanded[l]? ∧
        s2.startState[l]? = s.startState[l]? ∧
        s2.targetState[l]? = s.targetState[l]? := by
  unfold setLouvers
  obtain ⟨s2, hfold, hpa, hlen, hunt⟩ :=
    setLouvers_fold_spec position.enum { s with commandTimeTai := tai } (by
      intro q hq _
      have hsome := List.mem_enum_iff_getElem?.mp hq
      have hlt : q.1 < position.length := (List.getElem?_eq_some.mp hsome).1
      exact hb q.1 hlt)
  refine ⟨s2, hfold, ?_⟩
  intro l p hlp hnp
  exact hunt l (by
    intro q hq hql
    have hsome := List.mem_enum_iff_getElem?.mp hq
    rw [hql, hlp] at hsome
    rwa [Option.some_inj.mp hsome] at hnp)

/-! ## Claim theorems -/

/-- C1: in the mock controller dispatcher, the handler bound to the
exitFaultEl command awaits the exit_fault method of the LCS (louvers) state
machine, and the handler bound to exitFaultLouvers awaits the exit_fault
method of the LWSCS (elevation/windscreen) state machine — the reverse of
what the claim (and the handlers' own docstrings) state. -/
theorem c1_exit_fault_dispatch_swapped (tai : ℚ) (c : MockCtrl.ExitFaultCalls) :
    MockCtrl.dispatchExitFault .exitFaultEl tai c =
      { c with lcsExitFaultTais := c.lcsExitFaultTais ++ [tai] } ∧
    MockCtrl.dispatchExitFault .exitFaultLouvers tai c =
      { c with lwscsExitFaultTais := c.lwscsExitFaultTais ++ [tai] } := by
  exact ⟨rfl, rfl⟩

/-- C2: connecting with simulation mode SIMULATION_WITH_MOCK_CONTROLLER
raises: `MTDomeCom._start_mock_ctrl` passes the keyword arguments
timeout_error and new_thermal_schema, which the parameter list of
`MockMTDomeController.__init__` does not declare, so the construction of the
mock controller raises TypeError before any connection is made. -/
theorem c2_connect_with_mock_controller_raises :
    MockCtrl.connectStartsMockCtrl .simulationWithMockController =
      .error "TypeError: MockMTDomeController.__init__ got an unexpected keyword argument" ∧
    "timeout_error" ∈ MockCtrl.startMockCtrlKwargs ∧
    "timeout_error" ∉ MockCtrl.mockMTDomeControllerInitParams ∧
    "new_thermal_schema" ∈ MockCtrl.startMockCtrlKwargs ∧
    "new_thermal_schema" ∉ MockCtrl.mockMTDomeControllerInitParams := by
  refine ⟨rfl, ?_, ?_, ?_, ?_⟩ <;> decide

/-- C3 counterexample: the claim fails for every positive value of the
spec-modelled LOUVERS_POWER_DRAW constant: in the state c3CexState louver 0
is MOVING (and stays MOVING through the call, being half-way through its
motion), but because the loop reassigns power_draw on every iteration, the
reported powerDraw is decided by louver 33 alone, which is stationary, so
powerDraw is 0.0 and not LOUVERS_POWER_DRAW. -/
theorem c3_power_draw_counterexample :
    ¬ ∀ louversPowerDraw : ℚ, 0 < louversPowerDraw →
      lcsPowerDrawClaim louversPowerDraw := by
  intro hclaim
  have h1 := (hclaim 1 one_pos 15 c3CexState (by decide)).1 (by decide)
  rw [determineStatus_powerDraw_eq_last_louver] at h1
  rw [if_neg (by decide)] at h1
  exact zero_ne_one h1

/-- C3 amended: after every call to determine_status the reported powerDraw
equals LOUVERS_POWER_DRAW if louver 33 — the last louver the loop examines —
was in state MOVING when the call started, and 0.0 otherwise; the
contributions of louvers 0 to 32 are overwritten by the final loop
iteration. -/
theorem c3_power_draw_last_louver_wins (louversPowerDraw currentTai : ℚ)
    (s : LcsState) (_h : s.currentState.length = LCS_NUM_LOUVERS) :
    lcsLlcStatusPowerDraw (determineStatus louversPowerDraw currentTai s) =
      if s.currentState.getD 33 .stationary = .moving then louversPowerDraw
      else 0 :=
  determineStatus_powerDraw_eq_last_louver louversPowerDraw currentTai s

/-- C3 amended witness: at the concrete state c3CexState (louver 0 moving,
louver 33 stationary) the reported powerDraw is 0. -/
theorem c3_power_draw_last_louver_wins_witness :
    lcsLlcStatusPowerDraw (determineStatus 1 15 c3CexState) =
      if c3CexState.currentState.getD 33 .stationary = .moving then (1 : ℚ)
      else 0 :=
  c3_power_draw_last_louver_wins 1 15 c3CexState (by decide)

/-- C4 counterexample: a setLouvers command whose first entry is 150 (outside
[0, 100]) is NOT rejected: the mock controller replies OK (not
INCORRECT_PARAMETERS), and louver 0's commanded position and start/target
states are left unchanged — the out-of-range entry is silently ignored. -/
theorem c4_rejection_counterexample :
    (MockCtrl.readAndDispatchSetLouvers ⟨1, c4CexPosition⟩ 100 lcsInit).1.response =
      .ok ∧
    ResponseCode.ok ≠ ResponseCode.incorrectParameters ∧
    c4CexPosition[0]? = some 150 ∧ ¬ ((0 : ℚ) ≤ 150 ∧ (150 : ℚ) ≤ 100) ∧
    (MockCtrl.readAndDispatchSetLouvers
        ⟨1, c4CexPosition⟩ 100 lcsInit).2.positionCommanded[0]? =
      lcsInit.positionCommanded[0]? ∧
    (MockCtrl.readAndDispatchSetLouvers
        ⟨1, c4CexPosition⟩ 100 lcsInit).2.startState[0]? = lcsInit.startState[0]? ∧
    (MockCtrl.readAndDispatchSetLouvers
        ⟨1, c4CexPosition⟩ 100 lcsInit).2.targetState[0]? =
      lcsInit.targetState[0]? := by
  have hb : ∀ i, i < c4CexPosition.length →
      i < lcsInit.positionActual.length ∧ i < lcsInit.positionCommanded.length := by
    intro i hi
    simp only [c4CexPosition, List.length_cons, List.length_replicate] at hi
    constructor <;> simpa [lcsInit, LCS_NUM_LOUVERS] using hi
  obtain ⟨s2, hok, hunt⟩ := setLouvers_spec c4CexPosition 100 lcsInit hb
  have hrange : ¬ ((0 : ℚ) ≤ 150 ∧ (150 : ℚ) ≤ 100) := by
    rintro ⟨-, h150⟩
    norm_num at h150
  have h0 : c4CexPosition[0]? = some 150 := rfl
  have huntouched := hunt 0 150 h0 hrange
  unfold MockCtrl.readAndDispatchSetLouvers
  rw [hok]
  exact ⟨rfl, by decide, h0, hrange, huntouched.1, huntouched.2.1, huntouched.2.2⟩

/-- C4 amended: for every setLouvers command whose position array is no
longer than the 34 per-louver arrays, the mock controller accepts the command
with response OK, and every entry outside [0, 100] — be it -1 or any other
out-of-range value — leaves that louver's commanded position and start/target
states unchanged: out-of-range entries are silently ignored, not rejected. -/
theorem c4_out_of_range_ignored (commandId : Nat) (position : List ℚ)
    (currentTai : ℚ) (lcs : LcsState)
    (hb : ∀ i, i < position.length →
      i < lcs.positionActual.length ∧ i < lcs.positionCommanded.length) :
    (MockCtrl.readAndDispatchSetLouvers
        ⟨commandId, position⟩ currentTai lcs).1.response = .ok ∧
    ∀ (l : Nat) (p : ℚ), position[l]? = some p → ¬ (0 ≤ p ∧ p ≤ 100) →
      (MockCtrl.readAndDispatchSetLouvers
          ⟨commandId, position⟩ currentTai lcs).2.positionCommanded[l]? =
        lcs.positionCommanded[l]? ∧
      (MockCtrl.readAndDispatchSetLouvers
          ⟨commandId, position⟩ currentTai lcs).2.startState[l]? =
        lcs.startState[l]? ∧
      (MockCtrl.readAndDispatchSetLouvers
          ⟨commandId, position⟩ currentTai lcs).2.targetState[l]? =
        lcs.targetState[l]? := by
  obtain ⟨s2, hok, hunt⟩ := setLouvers_spec position currentTai lcs hb
  unfold MockCtrl.readAndDispatchSetLouvers
  rw [hok]
  exact ⟨rfl, fun l p hlp hnp => hunt l p hlp hnp⟩

/-- C4 amended witness: the amended behaviour at the concrete position array
c4CexPosition on the freshly initialised LcsStatus. -/
theorem c4_out_of_range_ignored_witness :
    (MockCtrl.readAndDispatchSetLouvers ⟨1, c4CexPosition⟩ 100 lcsInit).1.response =
      .ok ∧
    ∀ (l : Nat) (p : ℚ), c4CexPosition[l]? = some p → ¬ (0 ≤ p ∧ p ≤ 100) →
      (MockCtrl.readAndDispatchSetLouvers
          ⟨1, c4CexPosition⟩ 100 lcsInit).2.positionCommanded[l]? =
        lcsInit.positionCommanded[l]? ∧
      (MockCtrl.readAndDispatchSetLouvers
          ⟨1, c4CexPosition⟩ 100 lcsInit).2.startState[l]? =
        lcsInit.startState[l]? ∧
      (MockCtrl.readAndDispatchSetLouvers
          ⟨1, c4CexPosition⟩ 100 lcsInit).2.targetState[l]? =
        lcsInit.targetState[l]? :=
  c4_out_of_range_ignored 1 c4CexPosition 100 lcsInit (by
    intro i hi
    simp only [c4CexPosition, List.length_cons, List.length_replicate] at hi
    constructor <;> simpa [lcsInit, LCS_NUM_LOUVERS] using hi)

/-- C5: the bridge's telemetry pre-processing converts the AMCS keys
positionActual and positionCommanded from radians to degrees and then
subtracts the 32 degree dome azimuth offset wrapped into [0, 360) (the wrap
helper is the parameter `wrap`), converts the AMCS keys velocityActual and
velocityCommanded from radians to degrees only, and converts all four keys
from radians to degrees with no offset for LWSCS snapshots. -/
theorem c5_pre_process_status_units (deg wrap : ℚ → ℚ) (rnd : Nat → ℚ → ℚ)
    (v : ℚ) :
    Bridge.preProcessStatus deg wrap rnd .amcs [(.positionActual, v)] =
      [(.positionActual, wrap (deg v - DOME_AZIMUTH_OFFSET))] ∧
    Bridge.preProcessStatus deg wrap rnd .amcs [(.positionCommanded, v)] =
      [(.positionCommanded, wrap (deg v - DOME_AZIMUTH_OFFSET))] ∧
    Bridge.preProcessStatus deg wrap rnd .amcs [(.velocityActual, v)] =
      [(.velocityActual, deg v)] ∧
    Bridge.preProcessStatus deg wrap rnd .amcs [(.velocityCommanded, v)] =
      [(.velocityCommanded, deg v)] ∧
    Bridge.preProcessStatus deg wrap rnd .lwscs [(.positionActual, v)] =
      [(.positionActual, deg v)] ∧
    Bridge.preProcessStatus deg wrap rnd .lwscs [(.positionCommanded, v)] =
      [(.positionCommanded, deg v)] ∧
    Bridge.preProcessStatus deg wrap rnd .lwscs [(.velocityActual, v)] =
      [(.velocityActual, deg v)] ∧
    Bridge.preProcessStatus deg wrap rnd .lwscs [(.velocityCommanded, v)] =
      [(.velocityCommanded, deg v)] := by
  refine ⟨?_, ?_, ?_, ?_, ?_, ?_, ?_, ?_⟩ <;> rfl

/-- C6: when the bounded reply read times out (the bound being _TIMEOUT = 20
seconds), write_then_read_reply raises the timeout error, records a non-empty
communication error report (with response code UNSUPPORTED), and the entry
inserted for the command stays in the outstanding-commands table. -/
theorem c6_write_then_read_reply_timeout (simulationMode : ValidSimulationMode)
    (commandId : Nat) (command : CommandName) (sendTai : ℚ) (s : Bridge.BridgeState)
    (hdis : ¬ (simulationMode = .normalOperations ∧
      command ∈ Bridge.COMMANDS_DISABLED_FOR_COMMISSIONING)) :
    (Bridge.write_then_read_reply simulationMode true commandId command sendTai
        .timedOut s).1 = .error .timeoutError ∧
    (Bridge.write_then_read_reply simulationMode true commandId command sendTai
        .timedOut s).2.communicationErrorReport =
      some ⟨command, "TimeoutError", responseCodeVal .unsupported⟩ ∧
    (commandId, Bridge.CommandTime.mk command sendTai) ∈
      (Bridge.write_then_read_reply simulationMode true commandId command sendTai
        .timedOut s).2.commandsWithoutReply ∧
    Bridge._TIMEOUT = 20 := by
  have hnotin : command ∉ (if simulationMode = .normalOperations then
      Bridge.COMMANDS_DISABLED_FOR_COMMISSIONING else ([] : List CommandName)) := by
    split
    · intro hmem
      rename_i hsim
      exact hdis ⟨hsim, hmem⟩
    · simp
  unfold Bridge.write_then_read_reply
  simp [hnotin]
  split <;> simp [List.mem_append, Bridge._TIMEOUT]

/-- C6 witness: the timeout behaviour at a concrete command and bridge
state. -/
theorem c6_write_then_read_reply_timeout_witness :
    (Bridge.write_then_read_reply .simulationWithMockController true 7 .moveAz 100
        .timedOut ⟨[], none, true⟩).1 = .error .timeoutError ∧
    (Bridge.write_then_read_reply .simulationWithMockController true 7 .moveAz 100
        .timedOut ⟨[], none, true⟩).2.communicationErrorReport =
      some ⟨.moveAz, "TimeoutError", responseCodeVal .unsupported⟩ ∧
    (7, Bridge.CommandTime.mk .moveAz 100) ∈
      (Bridge.write_then_read_reply .simulationWithMockController true 7 .moveAz 100
        .timedOut ⟨[], none, true⟩).2.commandsWithoutReply ∧
    Bridge._TIMEOUT = 20 :=
  c6_write_then_read_reply_timeout .simulationWithMockController 7 .moveAz 100
    ⟨[], none, true⟩ (by decide)

/-- C7 counterexample: an outstanding entry aged exactly 2 times
COMMANDS_REPLIED_PERIOD (1200 seconds) has age at least
COMMANDS_REPLIED_PERIOD, yet the watchdog logs no warning for it (the
warn set is empty): it is removed with an error log instead, refuting the
claim that a warning is logged for every entry at least
COMMANDS_REPLIED_PERIOD old. -/
theorem c7_watchdog_counterexample :
    (1200 : ℚ) - 0 ≥ Bridge.COMMANDS_REPLIED_PERIOD ∧
    (Bridge.check_all_commands_have_replies 1200
      [(1, ⟨.moveAz, 0⟩)]).commandsStillWaiting = [] ∧
    (Bridge.check_all_commands_have_replies 1200
      [(1, ⟨.moveAz, 0⟩)]).commandsToRemove = [1] ∧
    (Bridge.check_all_commands_have_replies 1200 [(1, ⟨.moveAz, 0⟩)]).table = [] := by
  refine ⟨by norm_num [Bridge.COMMANDS_REPLIED_PERIOD], ?_, ?_, ?_⟩ <;>
    norm_num [Bridge.check_all_commands_have_replies, Bridge.commandsToRemoveOf,
      Bridge.commandsStillWaitingOf, Bridge.COMMANDS_REPLIED_PERIOD, List.filter]

/-- C7 amended: each run of check_all_commands_have_replies removes exactly
the entries whose age is at least 2 times COMMANDS_REPLIED_PERIOD (logging an
error for them), logs a warning exactly for the entries whose age is at least
COMMANDS_REPLIED_PERIOD but less than 2 times COMMANDS_REPLIED_PERIOD, and
keeps every entry younger than 2 times COMMANDS_REPLIED_PERIOD unchanged and
in order (command ids in the table are unique, as they come from a dict). -/
theorem c7_watchdog_classification (currentTai : ℚ)
    (table : List (Nat × Bridge.CommandTime))
    (hnd : (table.map Prod.fst).Nodup) :
    (Bridge.check_all_commands_have_replies currentTai table).table =
      table.filter (fun e =>
        currentTai - e.2.tai < 2 * Bridge.COMMANDS_REPLIED_PERIOD) ∧
    (∀ e ∈ table,
      (e.1 ∈ (Bridge.check_all_commands_have_replies currentTai table).commandsToRemove ↔
        currentTai - e.2.tai ≥ 2 * Bridge.COMMANDS_REPLIED_PERIOD)) ∧
    (∀ e ∈ table,
      (e.1 ∈ (Bridge.check_all_commands_have_replies
          currentTai table).commandsStillWaiting ↔
        (Bridge.COMMANDS_REPLIED_PERIOD ≤ currentTai - e.2.tai ∧
          currentTai - e.2.tai < 2 * Bridge.COMMANDS_REPLIED_PERIOD))) := by
  have inj := List.inj_on_of_nodup_map hnd
  have key1 : ∀ e ∈ table,
      (e.1 ∈ Bridge.commandsToRemoveOf currentTai table ↔
        currentTai - e.2.tai ≥ 2 * Bridge.COMMANDS_REPLIED_PERIOD) := by
    intro e he
    unfold Bridge.commandsToRemoveOf
    simp only [List.mem_map, List.mem_filter, decide_eq_true_eq]
    constructor
    · rintro ⟨e2, ⟨he2, hage⟩, heq⟩
      rwa [inj he2 he heq] at hage
    · intro hage
      exact ⟨e, ⟨he, hage⟩, rfl⟩
  have key2 : ∀ e ∈ table,
      (e.1 ∈ Bridge.commandsStillWaitingOf currentTai table ↔
        (Bridge.COMMANDS_REPLIED_PERIOD ≤ currentTai - e.2.tai ∧
          currentTai - e.2.tai < 2 * Bridge.COMMANDS_REPLIED_PERIOD)) := by
    intro e he
    unfold Bridge.commandsStillWaitingOf
    simp only [List.mem_map, List.mem_filter, decide_eq_true_eq, not_le, ge_iff_le]
    constructor
    · rintro ⟨e2, ⟨he2, hage⟩, heq⟩
      rw [inj he2 he heq] at hage
      exact ⟨hage.2, hage.1⟩
    · intro hage
      exact ⟨e, ⟨he, hage.2, hage.1⟩, rfl⟩
  refine ⟨?_, key1, key2⟩
  show table.filter _ = _
  apply List.filter_congr
  intro e he
  rw [decide_eq_decide]
  have h := key1 e he
  constructor
  · intro hn
    exact lt_of_not_ge (fun hge => hn (h.mpr hge))
  · intro hlt hmem
    exact absurd (h.mp hmem) (not_le.mpr hlt)

/-- C7 amended witness: a table with one entry aged 600 seconds (warned,
kept) and one aged 1250 seconds (removed) at a concrete current time. -/
theorem c7_watchdog_classification_witness :
    (Bridge.check_all_commands_have_replies 1250
        [(1, ⟨.moveAz, 650⟩), (2, ⟨.park, 0⟩)]).table =
      [(1, ⟨.moveAz, 650⟩), (2, ⟨.park, 0⟩)].filter (fun e =>
        (1250 : ℚ) - e.2.tai < 2 * Bridge.COMMANDS_REPLIED_PERIOD) ∧
    (∀ e ∈ [(1, Bridge.CommandTime.mk .moveAz 650), (2, ⟨.park, 0⟩)],
      (e.1 ∈ (Bridge.check_all_commands_have_replies 1250
          [(1, ⟨.moveAz, 650⟩), (2, ⟨.park, 0⟩)]).commandsToRemove ↔
        (1250 : ℚ) - e.2.tai ≥ 2 * Bridge.COMMANDS_REPLIED_PERIOD)) ∧
    (∀ e ∈ [(1, Bridge.CommandTime.mk .moveAz 650), (2, ⟨.park, 0⟩)],
      (e.1 ∈ (Bridge.check_all_commands_have_replies 1250
          [(1, ⟨.moveAz, 650⟩), (2, ⟨.park, 0⟩)]).commandsStillWaiting ↔
        (Bridge.COMMANDS_REPLIED_PERIOD ≤ (1250 : ℚ) - e.2.tai ∧
          (1250 : ℚ) - e.2.tai < 2 * Bridge.COMMANDS_REPLIED_PERIOD))) :=
  c7_watchdog_classification 1250 [(1, ⟨.moveAz, 650⟩), (2, ⟨.park, 0⟩)] (by decide)

/-- C8: a power-management command handed to
_schedule_command_if_power_management_active is written to the link
immediately (setting the non-status flag, bypassing the scheduler) exactly
when the power management mode is NO_POWER_MANAGEMENT, and in every other
mode it is appended to the scheduler's command queue and not written; the
eight power-management bridge methods moveEl, crawlEl, setLouvers,
closeLouvers, openShutter, closeShutter, fans and home all route through it
with their respective command names. -/
theorem c8_no_power_management_bypasses_scheduler (s : Bridge.PMState)
    (cmd : CommandName) (params : List (String × Bridge.ParamValue))
    (rad : ℚ → ℚ) (pos vel speed : ℚ) (louverPos : List ℚ) :
    (s.mode = .noPowerManagement →
      Bridge._schedule_command_if_power_management_active cmd params s =
        { s with hasNonStatusCommand := true, written := s.written ++ [⟨cmd, params⟩] }) ∧
    (s.mode ≠ .noPowerManagement →
      Bridge._schedule_command_if_power_management_active cmd params s =
        { s with queue := s.queue ++ [⟨cmd, params⟩] }) ∧
    Bridge.move_el rad pos s =
      Bridge._schedule_command_if_power_management_active .moveEl
        [("position", .num (rad pos))] s ∧
    Bridge.crawl_el rad vel s =
      Bridge._schedule_command_if_power_management_active .crawlEl
        [("velocity", .num (rad vel))] s ∧
    Bridge.set_louvers louverPos s =
      Bridge._schedule_command_if_power_management_active .setLouvers
        [("position", .arr louverPos)] s ∧
    Bridge.close_louvers s =
      Bridge._schedule_command_if_power_management_active .closeLouvers [] s ∧
    Bridge.open_shutter s =
      Bridge._schedule_command_if_power_management_active .openShutter [] s ∧
    Bridge.close_shutter s =
      Bridge._schedule_command_if_power_management_active .closeShutter [] s ∧
    Bridge.fans speed s =
      Bridge._schedule_command_if_power_management_active .fans
        [("speed", .num speed)] s ∧
    Bridge.home true s =
      Bridge._schedule_command_if_power_management_active .home [] s := by
  refine ⟨?_, ?_, rfl, rfl, rfl, rfl, rfl, rfl, rfl, rfl⟩ <;>
    intro h <;>
    simp [Bridge._schedule_command_if_power_management_active,
      Bridge.schedule_command, h]

/-- C8 witness: with the mode NO_POWER_MANAGEMENT the fans command is written
immediately, and with the mode OPERATIONS it is enqueued instead. -/
theorem c8_no_power_management_bypasses_scheduler_witness :
    Bridge._schedule_command_if_power_management_active .fans []
        ⟨.noPowerManagement, [], false, []⟩ =
      ⟨.noPowerManagement, [], true, [⟨.fans, []⟩]⟩ ∧
    Bridge._schedule_command_if_power_management_active .fans []
        ⟨.operations, [], false, []⟩ =
      ⟨.operations, [⟨.fans, []⟩], false, []⟩ := by
  refine ⟨?_, ?_⟩
  · exact (c8_no_power_management_bypasses_scheduler
      ⟨.noPowerManagement, [], false, []⟩ .fans [] id 0 0 0 []).1 rfl
  · exact (c8_no_power_management_bypasses_scheduler
      ⟨.operations, [], false, []⟩ .fans [] id 0 0 0 []).2.1 (by decide)

/-- C9: in LcsStatus all 34 rows of drives_in_error_state alias one shared
two-element list, and set_fault reads its input with slice stride
LCS_NUM_LOUVERS = 34 instead of 2: for every 68-element drives_in_error
input, after set_fault every louver's two error flags equal
(drives_in_error[34] == 1, drives_in_error[35] == 1) (iteration 1 overwrites
iteration 0's writes in the shared row, iterations 2..33 read empty slices),
and a subsequent exit_fault raises exactly when drives_in_error[34] == 1 or
drives_in_error[35] == 1 — so marking only louver 0's motors (indices 0 and
1) leaves exit_fault succeeding. -/
theorem c9_set_fault_aliased_row (tai tai2 : ℚ) (d : List Int) (s : LcsState)
    (hd : d.length = LCS_NUM_LOUVERS * LCS_NUM_MOTORS_PER_LOUVER)
    (hrow : s.drivesInErrorShared.length = LCS_NUM_MOTORS_PER_LOUVER) :
    ∃ s2, setFault tai d s = .ok s2 ∧
      (∀ l, l < LCS_NUM_LOUVERS →
        drivesInErrorState s2 l =
          [decide (d.getD 34 0 = 1), decide (d.getD 35 0 = 1)]) ∧
      ((∃ e, lcsExitFault tai2 s2 = .error e) ↔
        (d.getD 34 0 = 1 ∨ d.getD 35 0 = 1)) := by
  obtain ⟨s2, hok, hrow2⟩ := setFault_row_spec tai d s hd hrow
  refine ⟨s2, hok, fun l _ => hrow2, ?_⟩
  rw [lcsExitFault_error_iff tai2 s2 _ _ hrow2]
  simp

/-- C9 witness: on the freshly initialised LcsStatus, a drives_in_error input
that marks exactly louver 0's two motors (entries 0 and 1 set to 1, entries
34 and 35 zero) leaves every louver's flags all-false after set_fault, and
exit_fault does not raise. -/
theorem c9_set_fault_aliased_row_witness :
    ∃ s2, setFault 0 ((1 : Int) :: 1 :: List.replicate 66 0) lcsInit = .ok s2 ∧
      (∀ l, l < LCS_NUM_LOUVERS →
        drivesInErrorState s2 l =
          [decide (((1 : Int) :: 1 :: List.replicate 66 0).getD 34 0 = 1),
            decide (((1 : Int) :: 1 :: List.replicate 66 0).getD 35 0 = 1)]) ∧
      ((∃ e, lcsExitFault 1 s2 = .error e) ↔
        (((1 : Int) :: 1 :: List.replicate 66 0).getD 34 0 = 1 ∨
          ((1 : Int) :: 1 :: List.replicate 66 0).getD 35 0 = 1)) :=
  c9_set_fault_aliased_row 0 1 ((1 : Int) :: 1 :: List.replicate 66 0) lcsInit
    (by decide) (by decide)

/-- C10: set_power_management_mode is the identity whenever the requested
mode is NO_POWER_MANAGEMENT or equals the current mode (so both the mode and
the scheduler's command queue stay unchanged), and consequently once the mode
differs from NO_POWER_MANAGEMENT no sequence of calls ever brings it back to
NO_POWER_MANAGEMENT. -/
theorem c10_power_management_mode_never_returns_to_none :
    (∀ (s : Bridge.PMState) (r : Bridge.PowerManagementMode),
      r = .noPowerManagement ∨ r = s.mode →
        Bridge.set_power_management_mode s r = s) ∧
    (∀ (rs : List Bridge.PowerManagementMode) (s : Bridge.PMState),
      s.mode ≠ .noPowerManagement →
        (rs.foldl Bridge.set_power_management_mode s).mode ≠ .noPowerManagement) := by
  constructor
  · intro s r h
    rcases h with h | h <;> simp [Bridge.set_power_management_mode, h]
  · intro rs
    induction rs with
    | nil => intro s h; exact h
    | cons r rs ih =>
        intro s h
        apply ih
        unfold Bridge.set_power_management_mode
        split
        · exact h
        · split
          · exact h
          · rename_i hne _
            simpa using hne

/-- C10 witness: with the current mode OPERATIONS, requesting
NO_POWER_MANAGEMENT and then MAINTENANCE leaves the mode away from
NO_POWER_MANAGEMENT, and the identity cases hold at a concrete state. -/
theorem c10_power_management_mode_never_returns_to_none_witness :
    Bridge.set_power_management_mode ⟨.operations, [], false, []⟩ .noPowerManagement =
      ⟨.operations, [], false, []⟩ ∧
    ([.noPowerManagement, .maintenance].foldl Bridge.set_power_management_mode
      ⟨.operations, [], false, []⟩).mode ≠ .noPowerManagement := by
  constructor
  · exact c10_power_management_mode_never_returns_to_none.1
      ⟨.operations, [], false, []⟩ .noPowerManagement (Or.inl rfl)
  · exact c10_power_management_mode_never_returns_to_none.2
      [.noPowerManagement, .maintenance] ⟨.operations, [], false, []⟩ (by decide)

end MTDome
